import Mathlib

/-!
Verification of the identity statistic (`stat_identity`) of the plotnine
plotting library, shallowly embedded from `plotnine/stats/stat_identity.py`:

```
class stat_identity(stat):
    DEFAULT_PARAMS = {'geom': 'point', 'position': 'identity'}

    @classmethod
    def compute_panel(cls, data, scales, **params):
        return data
```

The panel dataset is modelled as a table (column names plus rows of cells),
scales as an opaque collection of per-aesthetic scale objects, and params as
a string-keyed configuration mapping.  `compute_panel` is embedded three
ways, all directly from the one-line body `return data`:

* `compute_panel` — the pure value-level function;
* `compute_panelRef` — heap-passing form over a store of objects, which
  makes mutation (or its absence) and reference identity of the result
  observable;
* `compute_panelE` — fallible form in `Except`, making the absence of
  raised errors observable;
* `runBody` — a fuel-indexed interpreter of the method body (the single
  statement `return data`), making step counts observable.
-/

namespace Plotnine

/-- A cell of a panel dataset: plotnine columns hold strings, numbers,
booleans or missing values. -/
inductive CellValue where
  | str : String → CellValue
  | num : Int → CellValue
  | boolv : Bool → CellValue
  | null : CellValue
deriving DecidableEq, Repr

/-- A panel dataset: a table with named columns and rows of cells
(the shallow embedding of the pandas DataFrame handed to the statistic). -/
structure DataFrame where
  columns : List String
  rows : List (List CellValue)
deriving DecidableEq, Repr

/-- Number of rows of a dataset. -/
def DataFrame.rowCount (d : DataFrame) : Nat :=
  d.rows.length

/-- The cell at row `i`, column `j`, when both indices are in range. -/
def DataFrame.cell (d : DataFrame) (i j : Nat) : Option CellValue :=
  (d.rows.get? i).bind fun r => r.get? j

/-- One per-aesthetic scale object: its aesthetic name together with its
domain/range mapping state.  The identity statistic treats it as opaque. -/
structure Scale where
  aesthetic : String
  domain : List CellValue
  range : List CellValue
deriving DecidableEq, Repr

/-- The scale context handed to `compute_panel`: a collection of
per-aesthetic scale objects. -/
abbrev Scales := List Scale

/-- A configuration mapping (the `**params` keyword arguments):
an association list from option names to option values. -/
abbrev Params := List (String × String)

namespace stat_identity

/-- Embedding of the class attribute
`DEFAULT_PARAMS = {'geom': 'point', 'position': 'identity'}`. -/
def DEFAULT_PARAMS : Params :=
  [("geom", "point"), ("position", "identity")]

/-- Embedding of `compute_panel(cls, data, scales, **params): return data`:
the pure value-level function. -/
def compute_panel (data : DataFrame) (scales : Scales) (params : Params) :
    DataFrame :=
  data

/-- A reference into the pipeline's object store. -/
abbrev Ref := Nat

/-- An object held by the pipeline: a panel dataset or a scale context. -/
inductive Obj where
  | frame : DataFrame → Obj
  | scaleCtx : Scales → Obj
deriving DecidableEq

/-- The pipeline's object store, mapping references to objects. -/
abbrev Store := Ref → Obj

/-- Heap-passing embedding of `compute_panel`: `data` and `scales` are
references into the store; the body `return data` performs no store
update and hands back the `data` reference itself. -/
def compute_panelRef (σ : Store) (data : Ref) (scales : Ref)
    (params : Params) : Ref × Store :=
  (data, σ)

/-- Fallible embedding of `compute_panel`: the body contains no `raise`
and calls nothing that can raise, so it always returns `Except.ok`. -/
def compute_panelE (data : DataFrame) (scales : Scales) (params : Params) :
    Except String DataFrame :=
  Except.ok data

/-- The statements of the method body: `return data` is its only
statement. -/
inductive Stmt where
  | retData : Stmt
deriving DecidableEq, Repr

/-- The body of `compute_panel`: the single statement `return data`. -/
def body : Stmt :=
  Stmt.retData

/-- Fuel-indexed interpreter of a method body over the call arguments:
each unit of fuel pays for one statement, and `return data` completes in
one step with the `data` argument. -/
def runBody : Nat → Stmt → DataFrame → Scales → Params → Option DataFrame
  | 0, _, _, _, _ => none
  | _ + 1, Stmt.retData, d, _, _ => some d

end stat_identity

end Plotnine

namespace Plotnine

/-- C1: for every panel dataset `d`, any scales and any params,
`compute_panel d scales params` is the very dataset `d`: same row count,
same column list (hence set and order), and every cell unchanged. -/
theorem compute_panel_identity_law (d : DataFrame) (s : Scales) (p : Params) :
    stat_identity.compute_panel d s p = d ∧
    (stat_identity.compute_panel d s p).rowCount = d.rowCount ∧
    (stat_identity.compute_panel d s p).columns = d.columns ∧
    ∀ i j, (stat_identity.compute_panel d s p).cell i j = d.cell i j := by
  exact ⟨rfl, rfl, rfl, fun _ _ => rfl⟩

/-- C2: the default configuration of `stat_identity` maps `geom` to
`"point"` and `position` to `"identity"`, and these are its only keys. -/
theorem DEFAULT_PARAMS_spec :
    stat_identity.DEFAULT_PARAMS =
      [("geom", "point"), ("position", "identity")] ∧
    stat_identity.DEFAULT_PARAMS.lookup "geom" = some "point" ∧
    stat_identity.DEFAULT_PARAMS.lookup "position" = some "identity" ∧
    stat_identity.DEFAULT_PARAMS.map Prod.fst = ["geom", "position"] := by
  refine ⟨rfl, ?_, ?_, rfl⟩ <;> decide

/-- C3: `compute_panel` is idempotent: applying it twice with any scales
and params yields the same dataset as applying it once. -/
theorem compute_panel_idempotent (d : DataFrame) (s : Scales) (p : Params) :
    stat_identity.compute_panel (stat_identity.compute_panel d s p) s p =
      stat_identity.compute_panel d s p := by
  rfl

/-- C4: noninterference of the non-data arguments: for any two choices of
scales and params, the output of `compute_panel` on the same dataset is
identical — the output depends only on the dataset. -/
theorem compute_panel_param_indifference (d : DataFrame)
    (s₁ s₂ : Scales) (p₁ p₂ : Params) :
    stat_identity.compute_panel d s₁ p₁ = stat_identity.compute_panel d s₂ p₂ := by
  rfl

/-- C5: `compute_panel` has no side effect on its data argument: in the
heap-passing embedding the store after the call equals the store before
it, so the object the data reference points to is bit-for-bit unchanged. -/
theorem compute_panel_no_mutation (σ : stat_identity.Store)
    (data scales : stat_identity.Ref) (p : Params) :
    (stat_identity.compute_panelRef σ data scales p).2 = σ ∧
    (stat_identity.compute_panelRef σ data scales p).2 data = σ data := by
  exact ⟨rfl, rfl⟩

/-- C6: `compute_panel` neither reads nor mutates the scales argument: in
the heap-passing embedding the scales object is unchanged after the call,
and in the pure embedding the result does not depend on the scales value. -/
theorem compute_panel_scales_unused (σ : stat_identity.Store)
    (data scales : stat_identity.Ref) (p : Params)
    (d : DataFrame) (s s' : Scales) :
    (stat_identity.compute_panelRef σ data scales p).2 scales = σ scales ∧
    stat_identity.compute_panel d s p = stat_identity.compute_panel d s' p := by
  exact ⟨rfl, rfl⟩

/-- C7: `compute_panel` introduces no errors: in the fallible embedding
every input triple yields `Except.ok` of the pure result, never an error. -/
theorem compute_panel_never_raises (d : DataFrame) (s : Scales) (p : Params) :
    stat_identity.compute_panelE d s p =
      Except.ok (stat_identity.compute_panel d s p) ∧
    ∀ e, stat_identity.compute_panelE d s p ≠ Except.error e := by
  exact ⟨rfl, fun _ h => Except.noConfusion h⟩

/-- C8: `compute_panel` always terminates in a single step: with any fuel
of at least one statement the interpreter of the body completes and
returns the input dataset, and it already does so with fuel exactly one. -/
theorem compute_panel_terminates (fuel : Nat) (d : DataFrame) (s : Scales)
    (p : Params) (h : 1 ≤ fuel) :
    stat_identity.runBody fuel stat_identity.body d s p =
      some (stat_identity.compute_panel d s p) := by
  cases fuel with
  | zero => exact absurd h (by decide)
  | succ n => rfl

/-- Witness for C8: at fuel one and a concrete one-cell dataset, the body
interpreter completes with the dataset itself. -/
theorem compute_panel_terminates_witness :
    stat_identity.runBody 1 stat_identity.body
        ⟨["x"], [[CellValue.num 1]]⟩ [] [] =
      some (stat_identity.compute_panel ⟨["x"], [[CellValue.num 1]]⟩ [] []) :=
  compute_panel_terminates 1 ⟨["x"], [[CellValue.num 1]]⟩ [] [] (by decide)

/-- C9: concurrent per-panel invocations are safe: in the heap-passing
embedding, running `compute_panel` on two panels in either order yields
the same two results and the same final store, and that final store is
the initial one — there is no shared mutable state to interfere through. -/
theorem compute_panel_concurrent_safe (σ : stat_identity.Store)
    (d₁ d₂ scales : stat_identity.Ref) (p : Params) :
    (stat_identity.compute_panelRef σ d₁ scales p).1 =
      (stat_identity.compute_panelRef
        (stat_identity.compute_panelRef σ d₂ scales p).2 d₁ scales p).1 ∧
    (stat_identity.compute_panelRef
        (stat_identity.compute_panelRef σ d₁ scales p).2 d₂ scales p).1 =
      (stat_identity.compute_panelRef σ d₂ scales p).1 ∧
    (stat_identity.compute_panelRef
        (stat_identity.compute_panelRef σ d₁ scales p).2 d₂ scales p).2 =
      (stat_identity.compute_panelRef
        (stat_identity.compute_panelRef σ d₂ scales p).2 d₁ scales p).2 ∧
    (stat_identity.compute_panelRef
        (stat_identity.compute_panelRef σ d₁ scales p).2 d₂ scales p).2 = σ := by
  exact ⟨rfl, rfl, rfl, rfl⟩

/-- C10: `compute_panel` returns the very object it was given: in the
heap-passing embedding the returned reference is the data reference
itself, so later mutation through the result aliases the caller's
original. -/
theorem compute_panel_returns_same_reference (σ : stat_identity.Store)
    (data scales : stat_identity.Ref) (p : Params) :
    (stat_identity.compute_panelRef σ data scales p).1 = data := by
  rfl

end Plotnine
